import Mathlib

/-!
Verification of the orchestration core of the agentic research assistant.

The Python sources (`workflow/research_workflow.py`, `workflow/state.py`, and the
agent classes under `agents/`) are shallowly embedded below.  Python strings are
modelled as Lean `String`s, but every string operation the code performs
(`strip`, `split`, `startswith`, `endswith`, `in`, slicing) is re-implemented
here as a structural recursion over `List Char` so that all definitions are
executable by the kernel.  Python floats are modelled as rationals (the code
only ever compares and averages scores; no claim depends on IEEE rounding).
Python dict-typed records (`ResearchState`, `Source`, ...) are modelled as
structures with the fields declared in `workflow/state.py`; `dict.get` on a key
that is always populated by the code is modelled as plain field access.
LLM / vector-store / web-search collaborators are modelled as oracle parameters
(`Except` values: `.error` is a raised provider exception), quantified over in
the theorems.
-/

/-! ### Python string primitives (structural, kernel-computable) -/

/-- Helper `listStartsWith hay needle`: `hay` begins with `needle` (Python `str.startswith`). -/
def listStartsWith : List Char → List Char → Bool
  | _, [] => true
  | [], _ :: _ => false
  | b :: bs, a :: as => a == b && listStartsWith bs as

/-- Python `sub in hay` for strings: `hay` has `sub` as a contiguous substring. -/
def listContainsSub : List Char → List Char → Bool
  | [], sub => listStartsWith [] sub
  | c :: t, sub => listStartsWith (c :: t) sub || listContainsSub t sub

/-- Python `str.strip()` on a character list. -/
def stripList (l : List Char) : List Char :=
  ((l.dropWhile Char.isWhitespace).reverse.dropWhile Char.isWhitespace).reverse

/-- Python `str.strip()`. -/
def pyStrip (s : String) : String := ⟨stripList s.toList⟩

/-- Python `str.startswith`. -/
def pyStartsWith (s t : String) : Bool := listStartsWith s.toList t.toList

/-- Python `str.endswith`. -/
def pyEndsWith (s t : String) : Bool := listStartsWith s.toList.reverse t.toList.reverse

/-- Python `sub in s` (substring containment). -/
def pyStrContains (s sub : String) : Bool := listContainsSub s.toList sub.toList

/-- Splitting on a newline character, Python `str.split('\n')` semantics
(`"".split('\n') == [""]`). -/
def splitLinesAux : List Char → List Char → List (List Char)
  | [], acc => [acc.reverse]
  | c :: rest, acc =>
    if c == '\n' then acc.reverse :: splitLinesAux rest []
    else splitLinesAux rest (c :: acc)

/-- Python `str.split('\n')`. -/
def pySplitLines (s : String) : List String := (splitLinesAux s.toList []).map fun l => ⟨l⟩

/-- The characters after the first `'.'`, if any (`str.split('.', 1)` tail). -/
def afterFirstDot : List Char → Option (List Char)
  | [] => none
  | c :: t => if c == '.' then some t else afterFirstDot t

/-- Python `line.split('.', 1)[-1]`: everything after the first dot, or the whole
string when it has no dot. -/
def pySplitDotTail (l : List Char) : List Char := (afterFirstDot l).getD l

/-- First character is a digit (`line[0].isdigit()`; the call sites guard that
the line is non-empty, the `[]` case is unreachable there). -/
def headIsDigit : List Char → Bool
  | [] => false
  | c :: _ => c.isDigit

/-- Join with `", "` (used for the Python list-repr of error kinds). -/
def joinComma : List String → String
  | [] => ""
  | [s] => s
  | s :: rest => s ++ ", " ++ joinComma rest

/-- Python `repr` of a list of strings, `"['a', 'b']"`. -/
def pyReprStringList (l : List String) : String :=
  "[" ++ joinComma (l.map fun s => "'" ++ s ++ "'") ++ "]"

/-- Join a list of strings with `"\n"` (Python `"\n".join`). -/
def joinNL : List String → String
  | [] => ""
  | [s] => s
  | s :: rest => s ++ "\n" ++ joinNL rest

/-- Python `sorted(l, key=key, reverse=True)`: a stable sort into descending key
order, modelled by Mathlib's stable `insertionSort` with the reversed order. -/
def pySortDesc {α : Type} (key : α → ℚ) (l : List α) : List α :=
  l.insertionSort fun a b => key b ≤ key a

/-! ### Data model (`workflow/state.py`) -/

/-- Python `ResearchStep` enum. -/
inductive ResearchStep where
  | initialized
  | planning
  | planning_complete
  | internal_research
  | external_research
  | research_complete
  | quality_assessment
  | quality_assessed
  | report_generation
  | sections_generated
  | report_synthesis
  | report_complete
  | error_recovery
deriving DecidableEq

/-- Python `Source` TypedDict.  `credibility_score` is declared `Optional[float]` in
`state.py` but every constructor in the code populates it with a number, so it
is modelled as a plain rational.  `metadata` is modelled as an association
list; only the `"domain"` key is ever read. -/
structure Source where
  content : String
  title : String
  url : Option String
  source_type : String
  relevance_score : ℚ
  credibility_score : ℚ
  question : String
  metadata : List (String × String)
deriving DecidableEq

/-- Python `QualityAssessment` TypedDict. -/
structure QualityAssessment where
  source_diversity : ℚ
  content_coverage : ℚ
  source_credibility : ℚ
  information_gaps : List String
  overall_score : ℚ
deriving DecidableEq

/-- An entry of the `errors` list: `{"type": ..., "message": ..., "step": ...}`. -/
structure ErrorInfo where
  type : String
  message : String
  step : String
deriving DecidableEq

/-- The `research_plan` dict built by `ResearchPlannerAgent.execute`. -/
structure ResearchPlan where
  topic : String
  questions : List String
  internal_sources_available : Nat
  external_domains_identified : Nat
  estimated_duration_minutes : Int
  research_strategy : String
deriving DecidableEq

/-- Python `ResearchState` TypedDict; `report_sections` is an association list in the
insertion order the code produces. -/
structure ResearchState where
  topic : String
  research_plan : Option ResearchPlan
  research_questions : List String
  internal_sources : List Source
  external_sources : List Source
  all_sources : List Source
  quality_assessment : Option QualityAssessment
  quality_score : ℚ
  report_sections : List (String × String)
  final_report : Option String
  current_step : ResearchStep
  iteration_count : Nat
  errors : List ErrorInfo
  start_time : Option String
  end_time : Option String
  processing_time : Option ℚ
deriving DecidableEq

/-- The initial state built by `app.py` for `/research/` and `/plan/`. -/
def mkInitialState (topic : String) (now : String) : ResearchState :=
  { topic := topic
    research_plan := none
    research_questions := []
    internal_sources := []
    external_sources := []
    all_sources := []
    quality_assessment := none
    quality_score := 0
    report_sections := []
    final_report := none
    current_step := .initialized
    iteration_count := 0
    errors := []
    start_time := some now
    end_time := none
    processing_time := none }

/-! ### `ResearchWorkflow._quality_router` (`research_workflow.py` 138-159) -/

/-- The conditional-edge router after quality assessment. -/
def _quality_router (s : ResearchState) : String :=
  let critical_errors := s.errors.filter fun e => pyStrContains e.type "critical"
  if critical_errors.isEmpty then
    if s.iteration_count ≥ 3 then "generate_report"
    else if s.quality_score ≥ 0.7 then "generate_report"
    else if s.quality_score ≥ 0.4 then "retry_research"
    else "replan"
  else "error"

/-! ### `ResearchPlannerAgent` (`agents/research_planner.py`) -/

namespace ResearchPlannerAgent

/-- Parsing step of `_generate_research_questions` (lines 66-74): numbered or
bulleted lines of the LLM response whose `split('.', 1)[-1].strip()` ends in a
question mark, capped at 6. -/
def _generate_research_questions (response : String) : List String :=
  ((pySplitLines (pyStrip response)).filterMap fun line =>
    if pyStrip line != "" && (headIsDigit line.toList || pyStartsWith line "-") then
      let question := pyStrip ⟨pySplitDotTail line.toList⟩
      if pyEndsWith question "?" then some question else none
    else none).take 6

/-- Python `_estimate_duration`: `int(len(questions) * 5 * (1.5 if len > 4 else 1.2))`. -/
def _estimate_duration (questions : List String) : Int :=
  let complexity_multiplier : ℚ := if questions.length > 4 then 1.5 else 1.2
  Rat.floor ((questions.length : ℚ) * 5 * complexity_multiplier)

/-- Python `_handle_error` (lines 103-118): append a typed error, move to
`ERROR_RECOVERY`; `iteration_count` is not touched here. -/
def _handle_error (s : ResearchState) (message : String) (error_type : String) : ResearchState :=
  { s with
    errors := s.errors ++ [⟨error_type, message, "planning"⟩]
    current_step := .error_recovery }

/-- Python `execute` (lines 14-45).  `resp` is the outcome of the question-generation
LLM call (the only statement inside the `try` that can raise: the two source
previews swallow their own exceptions and only contribute counts, passed here
as `internal_preview` / `external_preview`). -/
def execute (resp : Except String String) (internal_preview external_preview : Nat)
    (s : ResearchState) : ResearchState :=
  match resp with
  | .error m => _handle_error s m "planning_failed"
  | .ok response =>
    let research_questions := _generate_research_questions response
    { s with
      research_plan := some
        { topic := s.topic
          questions := research_questions
          internal_sources_available := internal_preview
          external_domains_identified := external_preview
          estimated_duration_minutes := _estimate_duration research_questions
          research_strategy := "comprehensive_multi_source" }
      research_questions := research_questions
      current_step := .planning_complete
      iteration_count := s.iteration_count + 1 }

end ResearchPlannerAgent

/-! ### `InternalResearchAgent` (`agents/internal_researcher.py`) -/

/-- A raw vector-store hit (`{"text": ..., "score": ..., "title"?, "metadata"?}`). -/
structure RawInternal where
  text : String
  title : Option String
  score : ℚ
  metadata : List (String × String)
deriving DecidableEq

namespace InternalResearchAgent

/-- The first 200 characters of the content, the deduplication key of
`_deduplicate_sources` (the Python code hashes this prefix; the hash of a
string prefix is modelled as the prefix itself). -/
def dedupKey (s : Source) : List Char := s.content.toList.take 200

/-- Python `_deduplicate_sources` loop with its `seen_content` set. -/
def dedupAux : List Source → List (List Char) → List Source
  | [], _ => []
  | s :: rest, seen =>
    if dedupKey s ∈ seen then dedupAux rest seen
    else s :: dedupAux rest (dedupKey s :: seen)

/-- Python `_deduplicate_sources` (lines 112-125). -/
def _deduplicate_sources (sources : List Source) : List Source := dedupAux sources []

/-- Collection loop of `execute` (lines 23-39): per-question results that came
back as exceptions are skipped, the rest become internal `Source`s. -/
def collectSources (questions : List String)
    (results : Nat → Except String (List RawInternal)) : List Source :=
  (questions.enum.map fun p =>
    match results p.1 with
    | .error _ => []
    | .ok rs => rs.map fun r =>
      { content := r.text
        title := r.title.getD ("Internal Document - " ++ p.2)
        url := none
        source_type := "internal"
        relevance_score := r.score
        credibility_score := 0.9
        question := p.2
        metadata := r.metadata }).flatten

/-- Python `_handle_error` (lines 127-144). -/
def _handle_error (s : ResearchState) (message : String) : ResearchState :=
  { s with
    internal_sources := []
    errors := s.errors ++ [⟨"internal_research_failed", message, "internal_research"⟩]
    current_step :=
      if s.current_step ≠ ResearchStep.external_research then ResearchStep.internal_research
      else ResearchStep.research_complete }

/-- Python `execute` (lines 12-54): collect, deduplicate, sort by relevance descending,
keep the top 20.  `fatal` is an exception escaping the body of the `try`
(e.g. a malformed result dict); per-question provider outcomes are `results`. -/
def execute (fatal : Option String) (results : Nat → Except String (List RawInternal))
    (s : ResearchState) : ResearchState :=
  match fatal with
  | some m => _handle_error s m
  | none =>
    let internal_sources :=
      (pySortDesc (fun x => x.relevance_score)
        (_deduplicate_sources (collectSources s.research_questions results))).take 20
    { s with
      internal_sources := internal_sources
      current_step :=
        if s.current_step ≠ ResearchStep.external_research then ResearchStep.internal_research
        else ResearchStep.research_complete }

end InternalResearchAgent

/-! ### `ExternalResearchAgent` (`agents/external_researcher.py`) -/

/-- A processed search result as returned by `_process_search_result`
(lines 157-168): all keys are always present. -/
structure RawExternal where
  content : String
  title : String
  url : String
  relevance_score : ℚ
  credibility_score : ℚ
  metadata : List (String × String)
deriving DecidableEq

namespace ExternalResearchAgent

/-- Collection loop of `execute` (lines 26-42). -/
def collectSources (questions : List String)
    (results : Nat → Except String (List RawExternal)) : List Source :=
  (questions.enum.map fun p =>
    match results p.1 with
    | .error _ => []
    | .ok rs => rs.map fun r =>
      { content := r.content
        title := r.title
        url := some r.url
        source_type := "external"
        relevance_score := r.relevance_score
        credibility_score := r.credibility_score
        question := p.2
        metadata := r.metadata }).flatten

/-- Python `_filter_quality_sources` (lines 219-231). -/
def _filter_quality_sources (sources : List Source) : List Source :=
  sources.filter fun s =>
    decide (s.relevance_score ≥ 0.3) && decide (s.credibility_score ≥ 0.4)
      && decide (s.content.length ≥ 200)

/-- Python `_handle_error` (lines 233-250). -/
def _handle_error (s : ResearchState) (message : String) : ResearchState :=
  { s with
    external_sources := []
    errors := s.errors ++ [⟨"external_research_failed", message, "external_research"⟩]
    current_step :=
      if s.current_step ≠ ResearchStep.internal_research then ResearchStep.external_research
      else ResearchStep.research_complete }

/-- Python `execute` (lines 12-57): collect, filter on quality thresholds, sort by
`credibility * relevance` descending, keep the top 25. -/
def execute (fatal : Option String) (results : Nat → Except String (List RawExternal))
    (s : ResearchState) : ResearchState :=
  match fatal with
  | some m => _handle_error s m
  | none =>
    let external_sources :=
      (pySortDesc (fun x => x.credibility_score * x.relevance_score)
        (_filter_quality_sources (collectSources s.research_questions results))).take 25
    { s with
      external_sources := external_sources
      current_step :=
        if s.current_step ≠ ResearchStep.internal_research then ResearchStep.external_research
        else ResearchStep.research_complete }

end ExternalResearchAgent

/-! ### `QualityAssessorAgent` (`agents/quality_assessor.py`) -/

/-- Outcome of one coverage LLM interaction for one question:
`.error` = the chat-completion call raised; `.ok none` = the call returned text
that `float()` rejects; `.ok (some x)` = the response parsed as the float `x`.
The oracle receives the (at most 5) sources shown in the prompt. -/
def CoverageOracle : Type := Nat → List Source → Except String (Option ℚ)

namespace QualityAssessorAgent

/-- Mean relevance score, `sum(...) / len(...)` (call sites guard non-emptiness). -/
def meanRelevance (sources : List Source) : ℚ :=
  (sources.map fun s => s.relevance_score).sum / sources.length

/-- Python `_calculate_question_coverage` (lines 121-162): 0 for no sources; otherwise
ask the LLM about the first 5 sources; a response that does not parse as a
float yields the constant 0.5; a raised LLM call falls back to the mean
relevance of the question's sources; a parsed value is clamped to [0, 1]. -/
def _calculate_question_coverage (sources : List Source)
    (llm : List Source → Except String (Option ℚ)) : ℚ :=
  if sources.isEmpty then 0
  else
    match llm (sources.take 5) with
    | .error _ => meanRelevance sources
    | .ok none => 0.5
    | .ok (some score) => max 0 (min 1 score)

/-- Python `_assess_content_coverage` (lines 100-119). -/
def _assess_content_coverage (questions : List String) (sources : List Source)
    (cov : CoverageOracle) : ℚ :=
  if questions.isEmpty || sources.isEmpty then 0
  else
    let coverage_scores := questions.enum.map fun p =>
      let related_sources := sources.filter fun s => s.question == p.2
      if related_sources.isEmpty then 0
      else _calculate_question_coverage related_sources (cov p.1)
    coverage_scores.sum / coverage_scores.length

/-- Domain of an external source, `source.get("metadata", {}).get("domain", "unknown")`. -/
def sourceDomain (s : Source) : String := ((s.metadata.lookup "domain").getD "unknown")

/-- Python `_assess_source_diversity` (lines 72-98). -/
def _assess_source_diversity (internal_sources external_sources : List Source) : ℚ :=
  let total_sources := internal_sources.length + external_sources.length
  if total_sources = 0 then 0
  else
    let internal_ratio : ℚ := internal_sources.length / total_sources
    let ideal_internal : ℚ := 0.4
    let internal_score : ℚ := 1 - |internal_ratio - ideal_internal| / ideal_internal
    let external_domains := (external_sources.map sourceDomain).dedup
    let domain_diversity : ℚ :=
      min ((external_domains.length : ℚ) / max external_sources.length 1) 1
    max 0 (min 1 (internal_score * 0.6 + domain_diversity * 0.4))

/-- Python `_assess_source_credibility` (lines 164-170). -/
def _assess_source_credibility (sources : List Source) : ℚ :=
  if sources.isEmpty then 0
  else (sources.map fun s => s.credibility_score).sum / sources.length

/-- Python `_identify_information_gaps` (lines 172-191). -/
def _identify_information_gaps (questions : List String) (sources : List Source) : List String :=
  questions.filter fun q =>
    let related_sources := sources.filter fun s => s.question == q
    if related_sources.isEmpty then true
    else
      decide ((related_sources.map fun s => s.content.length).sum < 1000)
        || decide (meanRelevance related_sources < 0.4)

/-- Python `_assess_research_quality` (lines 38-70).  Every sub-score is total; the
final `1.0 - len(gaps) / len(questions)` raises `ZeroDivisionError` when the
question list is empty — the only exception the surrounding `try` can see. -/
def _assess_research_quality (questions : List String)
    (internal_sources external_sources : List Source) (cov : CoverageOracle) :
    Except String QualityAssessment :=
  if questions.isEmpty then .error "ZeroDivisionError: division by zero"
  else
    let source_diversity := _assess_source_diversity internal_sources external_sources
    let content_coverage :=
      _assess_content_coverage questions (internal_sources ++ external_sources) cov
    let source_credibility :=
      _assess_source_credibility (internal_sources ++ external_sources)
    let information_gaps :=
      _identify_information_gaps questions (internal_sources ++ external_sources)
    .ok
      { source_diversity := source_diversity
        content_coverage := content_coverage
        source_credibility := source_credibility
        information_gaps := information_gaps
        overall_score :=
          source_diversity * 0.2 + content_coverage * 0.4 + source_credibility * 0.3
            + (1 - (information_gaps.length : ℚ) / (questions.length : ℚ)) * 0.1 }

/-- Python `_handle_error` (lines 197-215): note that `quality_assessment` is not
written here — only `quality_score` gets the 0.6 default. -/
def _handle_error (s : ResearchState) (message : String) : ResearchState :=
  { s with
    quality_score := 0.6
    all_sources := s.internal_sources ++ s.external_sources
    errors := s.errors ++ [⟨"quality_assessment_failed", message, "quality_assessment"⟩]
    current_step := .quality_assessed }

/-- Python `execute` (lines 9-36). -/
def execute (cov : CoverageOracle) (s : ResearchState) : ResearchState :=
  match _assess_research_quality s.research_questions s.internal_sources s.external_sources cov with
  | .error m => _handle_error s m
  | .ok assessment =>
    { s with
      quality_assessment := some assessment
      quality_score := assessment.overall_score
      all_sources := s.internal_sources ++ s.external_sources
      current_step := .quality_assessed }

end QualityAssessorAgent

/-! ### `ReportGeneratorAgent` (`agents/report_generator.py`) -/

namespace ReportGeneratorAgent

/-- The numbered internal-source lines of `_generate_references` (lines 209-214):
at most 15 entries. -/
def referencesInternalEntries (sources : List Source) : List String :=
  ((sources.filter fun s => s.source_type == "internal").take 15).enum.map fun p =>
    toString (p.1 + 1) ++ ". " ++ p.2.title

/-- The numbered external-source lines of `_generate_references` (lines 216-225):
at most 20 entries. -/
def referencesExternalEntries (sources : List Source) : List String :=
  ((sources.filter fun s => s.source_type == "external").take 20).enum.map fun p =>
    match p.2.url with
    | some u =>
      if u == "" then toString (p.1 + 1) ++ ". " ++ p.2.title
      else toString (p.1 + 1) ++ ". " ++ p.2.title ++ ". Retrieved from " ++ u
    | none => toString (p.1 + 1) ++ ". " ++ p.2.title

/-- Python `_generate_references` (lines 201-227): deterministic, no LLM. -/
def _generate_references (sources : List Source) : String :=
  let internalBlock :=
    if (sources.filter fun s => s.source_type == "internal").isEmpty then []
    else "## Internal Sources" :: referencesInternalEntries sources
  let externalBlock :=
    if (sources.filter fun s => s.source_type == "external").isEmpty then []
    else "\n## External Sources" :: referencesExternalEntries sources
  joinNL (internalBlock ++ externalBlock)

/-- Python `_handle_insufficient_sources` (lines 292-309). -/
def _handle_insufficient_sources (s : ResearchState) : ResearchState :=
  { s with
    report_sections :=
      [("executive_summary", "Research on '" ++ s.topic ++ "' was conducted but insufficient sources were found to generate a comprehensive report."),
       ("introduction", "This report examines '" ++ s.topic ++ "'. However, limited source material was available for analysis."),
       ("key_findings", "Limited findings available due to insufficient source material."),
       ("detailed_analysis", "Unable to provide detailed analysis due to lack of sufficient sources."),
       ("conclusion", "This research was limited by insufficient source material. Further investigation with additional resources is recommended."),
       ("references", "No sufficient sources available for citation.")]
    current_step := .sections_generated }

/-- Python `_handle_error` (lines 311-327). -/
def _handle_error (s : ResearchState) (message : String) : ResearchState :=
  { s with
    report_sections := []
    errors := s.errors ++ [⟨"report_generation_failed", message, "report_generation"⟩]
    current_step := .error_recovery }

/-- One generated section: a successful LLM text, or the visible error
placeholder for a section whose task raised. -/
def sectionResult (name : String) (r : Except String String) : String :=
  match r with
  | .ok text => text
  | .error m => "Error generating " ++ name ++ ": " ++ m

/-- Python `execute` (lines 10-51): the five LLM-driven sections are oracle outcomes,
the references section is computed deterministically from `all_sources`. -/
def execute (fatal : Option String) (sec : Nat → Except String String)
    (s : ResearchState) : ResearchState :=
  match fatal with
  | some m => _handle_error s m
  | none =>
    if s.all_sources.isEmpty then _handle_insufficient_sources s
    else
      { s with
        report_sections :=
          [("executive_summary", sectionResult "executive_summary" (sec 0)),
           ("introduction", sectionResult "introduction" (sec 1)),
           ("key_findings", sectionResult "key_findings" (sec 2)),
           ("detailed_analysis", sectionResult "detailed_analysis" (sec 3)),
           ("conclusion", sectionResult "conclusion" (sec 4)),
           ("references", _generate_references s.all_sources)]
        current_step := .sections_generated }

end ReportGeneratorAgent

/-! ### `ReportSynthesizerAgent` (`agents/report_synthesizer.py`)

`fmt` stands for Python's `"{:.2f}".format` on a float; the exact decimal
rendering is irrelevant to every claim, so it is passed as an oracle. -/

namespace ReportSynthesizerAgent

/-- Python `_calculate_processing_time` (lines 171-180); `parse` models
`datetime.fromisoformat` (`none` = it raised, absorbed into 0.0; an empty or
missing timestamp is falsy and also yields 0.0). -/
def _calculate_processing_time (parse : String → Option ℚ)
    (start_time end_time : Option String) : ℚ :=
  match start_time, end_time with
  | some st, some et =>
    if st == "" || et == "" then 0
    else
      match parse st, parse et with
      | some a, some b => b - a
      | _, _ => 0
  | _, _ => 0

/-- Python `_create_report_header` (lines 82-98). -/
def _create_report_header (fmt : ℚ → String) (topic : String) (current_date : String)
    (quality_score : ℚ) (source_count internal_count external_count : Nat) : String :=
  "# Research Report: " ++ topic ++ "\n\n**Date:** " ++ current_date
    ++ "\n**Report Quality Score:** " ++ fmt quality_score ++ "/1.00"
    ++ "\n**Total Sources:** " ++ toString source_count ++ " (" ++ toString internal_count
    ++ " internal, " ++ toString external_count ++ " external)\n\n---"

/-- Python `_create_metadata_section` (lines 100-132); only called when
`quality_assessment` is populated (on `None` the attribute access raises, see
`_synthesize_report`). -/
def _create_metadata_section (fmt : ℚ → String) (s : ResearchState)
    (qa : QualityAssessment) : String :=
  "\n---\n\n# Research Methodology\n\n## Quality Assessment\n"
    ++ "- **Source Diversity:** " ++ fmt qa.source_diversity ++ "\n"
    ++ "- **Content Coverage:** " ++ fmt qa.content_coverage ++ "\n"
    ++ "- **Source Credibility:** " ++ fmt qa.source_credibility ++ "\n"
    ++ "- **Overall Quality Score:** " ++ fmt s.quality_score ++ "\n\n"
    ++ "## Research Process\n"
    ++ "- **Research Questions:** " ++ toString s.research_questions.length ++ "\n"
    ++ "- **Internal Sources Found:** " ++ toString s.internal_sources.length ++ "\n"
    ++ "- **External Sources Found:** " ++ toString s.external_sources.length ++ "\n"
    ++ "## Information Gaps\n"
    ++ (if qa.information_gaps.isEmpty then "- No significant information gaps identified\n"
        else joinNL (qa.information_gaps.map fun g => "- " ++ g))

/-- The section bodies appended between header and metadata (lines 52-68):
fixed order, a section is skipped when absent or empty. -/
def sectionParts (sections : List (String × String)) : List String :=
  ([("executive_summary", "Executive Summary"), ("introduction", "Introduction"),
    ("key_findings", "Key Findings"), ("detailed_analysis", "Detailed Analysis"),
    ("conclusion", "Conclusion"), ("references", "References")].map fun p =>
      match sections.lookup p.1 with
      | some v => if v == "" then [] else ["\n# " ++ p.2 ++ "\n", v, "\n"]
      | none => []).flatten

/-- Python `_synthesize_report` (lines 38-80) with the `_post_process_report` call
(lines 134-169) inlined: raises when `quality_assessment` is `None` (the
`state.get("quality_assessment", {})` default never fires because the key is
always present, so `.get` is called on `None`); the LLM consistency pass only
runs on reports shorter than 3000 characters and its failure is absorbed. -/
def _synthesize_report (s : ResearchState) (post : Except String String)
    (current_date : String) (fmt : ℚ → String) : Except String String :=
  match s.quality_assessment with
  | none => .error "AttributeError: 'NoneType' object has no attribute 'get'"
  | some qa =>
    let header := _create_report_header fmt s.topic current_date s.quality_score
      s.all_sources.length s.internal_sources.length s.external_sources.length
    let final_report :=
      joinNL (header :: (sectionParts s.report_sections ++ [_create_metadata_section fmt s qa]))
    if final_report.length < 3000 then
      match post with
      | .ok improved => .ok improved
      | .error _ => .ok final_report
    else .ok final_report

/-- Python `_handle_empty_sections` (lines 182-212). -/
def _handle_empty_sections (s : ResearchState) (now_iso current_date : String)
    (fmt : ℚ → String) : ResearchState :=
  { s with
    final_report := some
      ("\n# Research Report: " ++ s.topic ++ "\n\n**Date:** " ++ current_date
        ++ "\n**Status:** Incomplete - Insufficient Data\n\n## Summary\nResearch on '"
        ++ s.topic
        ++ "' was initiated but could not be completed due to insufficient source material or processing errors.\n\n"
        ++ "## Recommendation\nPlease try the research again with:\n- More specific search terms\n- Expanded source databases\n- Alternative research approaches\n\n"
        ++ "## Technical Details\n- Quality Score: " ++ fmt s.quality_score
        ++ "\n- Sources Found: " ++ toString s.all_sources.length
        ++ "\n- Processing Errors: " ++ toString s.errors.length ++ "\n        ")
    end_time := some now_iso
    current_step := .report_complete }

/-- Python `_handle_error` (lines 214-249). -/
def _handle_error (s : ResearchState) (message : String) (now_iso current_date : String) :
    ResearchState :=
  { s with
    final_report := some
      ("\n# Research Report: " ++ s.topic ++ "\n\n**Date:** " ++ current_date
        ++ "\n**Status:** Failed - Synthesis Error\n\n## Error Information\nAn error occurred during report synthesis: "
        ++ message
        ++ "\n\n## Available Data\n- Research Questions: " ++ toString s.research_questions.length
        ++ "\n- Sources Found: " ++ toString s.all_sources.length
        ++ "\n- Sections Generated: " ++ toString s.report_sections.length
        ++ "\n\nPlease try the research again or contact support if the issue persists.\n        ")
    errors := s.errors ++ [⟨"report_synthesis_failed", message, "report_synthesis"⟩]
    end_time := some now_iso
    current_step := .report_complete }

/-- Python `execute` (lines 10-36). -/
def execute (post : Except String String) (now_iso current_date : String)
    (parse : String → Option ℚ) (fmt : ℚ → String) (s : ResearchState) : ResearchState :=
  if s.report_sections.isEmpty then _handle_empty_sections s now_iso current_date fmt
  else
    match _synthesize_report s post current_date fmt with
    | .error m => _handle_error s m now_iso current_date
    | .ok final_report =>
      { s with
        final_report := some final_report
        end_time := some now_iso
        processing_time := some (_calculate_processing_time parse s.start_time (some now_iso))
        current_step := .report_complete }

end ReportSynthesizerAgent

/-! ### `ResearchWorkflow` — the LangGraph wiring (`research_workflow.py`) -/

/-- The nodes of the compiled graph plus the `END` sentinel. -/
inductive WorkflowNode where
  | planner
  | parallel_research
  | quality_assessor
  | report_generator
  | synthesizer
  | error_recovery
  | terminal
deriving DecidableEq

/-- The collaborator environment: one deterministic outcome per node
invocation (`Nat` = invocation counter) for every external effect. -/
structure Env where
  now_iso : Nat → String
  now_date : Nat → String
  parse_iso : String → Option ℚ
  fmt_float : ℚ → String
  planner_resp : Nat → Except String String
  planner_internal_preview : Nat → Nat
  planner_external_preview : Nat → Nat
  internal_fatal : Nat → Option String
  internal_results : Nat → Nat → Except String (List RawInternal)
  external_fatal : Nat → Option String
  external_results : Nat → Nat → Except String (List RawExternal)
  coverage_llm : Nat → CoverageOracle
  generator_fatal : Nat → Option String
  section_llm : Nat → Nat → Except String String
  post_process_llm : Nat → Except String String

/-- Python `_planning_node` (lines 60-66). -/
def _planning_node (env : Env) (k : Nat) (s : ResearchState) : ResearchState :=
  ResearchPlannerAgent.execute (env.planner_resp k) (env.planner_internal_preview k)
    (env.planner_external_preview k)
    { s with
      current_step := .planning
      start_time := if (s.start_time.getD "") == "" then some (env.now_iso k) else s.start_time }

/-- The merge part of `_parallel_research_node` (lines 81-109), parameterised by
the two task outcomes delivered by `asyncio.gather(..., return_exceptions=True)`
(`.error` = the task's exception object). -/
def _parallel_research_merge (base : ResearchState)
    (internal_result external_result : Except String ResearchState) : ResearchState :=
  let m1 :=
    match internal_result with
    | .ok st => { base with internal_sources := st.internal_sources }
    | .error msg =>
      { base with
        internal_sources := []
        errors := base.errors ++ [ErrorInfo.mk "internal_research_failed" msg "internal_research"] }
  let m2 :=
    match external_result with
    | .ok st => { m1 with external_sources := st.external_sources }
    | .error msg =>
      { m1 with
        external_sources := []
        errors := m1.errors ++ [ErrorInfo.mk "external_research_failed" msg "external_research"] }
  { m2 with current_step := .research_complete }

/-- Python `_parallel_research_node` (lines 68-109).  Both agents catch their own
exceptions, so the gathered tasks deliver states, never exceptions; errors the
agents appended in place land in the shallow-copied dict's shared `errors`
list, modelled by the `drop`-suffixes. -/
def _parallel_research_node (env : Env) (k : Nat) (s : ResearchState) : ResearchState :=
  let s0 := { s with current_step := ResearchStep.internal_research }
  let ir := InternalResearchAgent.execute (env.internal_fatal k) (env.internal_results k) s0
  let er := ExternalResearchAgent.execute (env.external_fatal k) (env.external_results k) s0
  let base := { s0 with
    errors := s0.errors ++ ir.errors.drop s0.errors.length ++ er.errors.drop s0.errors.length }
  _parallel_research_merge base (.ok ir) (.ok er)

/-- Python `_quality_assessment_node` (lines 111-114). -/
def _quality_assessment_node (env : Env) (k : Nat) (s : ResearchState) : ResearchState :=
  QualityAssessorAgent.execute (env.coverage_llm k)
    { s with current_step := ResearchStep.quality_assessment }

/-- Python `_report_generation_node` (lines 116-119). -/
def _report_generation_node (env : Env) (k : Nat) (s : ResearchState) : ResearchState :=
  ReportGeneratorAgent.execute (env.generator_fatal k) (env.section_llm k)
    { s with current_step := ResearchStep.report_generation }

/-- Python `_synthesis_node` (lines 121-124). -/
def _synthesis_node (env : Env) (k : Nat) (s : ResearchState) : ResearchState :=
  ReportSynthesizerAgent.execute (env.post_process_llm k) (env.now_iso k) (env.now_date k)
    env.parse_iso env.fmt_float { s with current_step := ResearchStep.report_synthesis }

/-- Python `_error_recovery_node` (lines 126-136). -/
def _error_recovery_node (s : ResearchState) : ResearchState :=
  if s.errors.length > 5 then
    { s with
      final_report := some ("Research failed due to multiple errors: "
        ++ pyReprStringList (s.errors.map fun e => e.type))
      current_step := .report_complete }
  else s

/-- Execute one graph node. -/
def stepNode (env : Env) (k : Nat) : WorkflowNode → ResearchState → ResearchState
  | .planner, s => _planning_node env k s
  | .parallel_research, s => _parallel_research_node env k s
  | .quality_assessor, s => _quality_assessment_node env k s
  | .report_generator, s => _report_generation_node env k s
  | .synthesizer, s => _synthesis_node env k s
  | .error_recovery, s => _error_recovery_node s
  | .terminal, s => s

/-- The conditional-edge mapping of `_create_workflow` (lines 43-52); the
router only ever produces the four mapped strings. -/
def routeTarget : String → WorkflowNode
  | "generate_report" => .report_generator
  | "retry_research" => .parallel_research
  | "replan" => .planner
  | _ => .error_recovery

/-- The edges of `_create_workflow` (lines 36-56). -/
def nextNode : WorkflowNode → ResearchState → WorkflowNode
  | .planner, _ => .parallel_research
  | .parallel_research, _ => .quality_assessor
  | .quality_assessor, s => routeTarget (_quality_router s)
  | .report_generator, _ => .synthesizer
  | .synthesizer, _ => .terminal
  | .error_recovery, _ => .terminal
  | .terminal, _ => .terminal

/-- The only exception the functional graph model can produce: LangGraph's
recursion limit (default 25 super-steps), raised as `GraphRecursionError`. -/
inductive GraphError where
  | recursionLimit
deriving DecidableEq

/-- Python `str(e)` for the graph error. -/
def graphErrMsg : GraphError → String
  | .recursionLimit => "Recursion limit of 25 reached"

/-- LangGraph's default recursion limit, the bound on node executions. -/
def RECURSION_LIMIT : Nat := 25

/-- Graph execution (`self.workflow.ainvoke`): run nodes along the edges until
`END`, giving up with `GraphRecursionError` when the step budget is spent. -/
def runGraph (env : Env) : Nat → Nat → WorkflowNode → ResearchState →
    Except GraphError ResearchState
  | 0, _, _, _ => .error .recursionLimit
  | fuel + 1, k, node, s =>
    let s1 := stepNode env k node s
    match nextNode node s1 with
    | .terminal => .ok s1
    | n => runGraph env fuel (k + 1) n s1

/-- Python `ResearchWorkflow.execute` (lines 161-179): the top-level guard converts
any exception escaping graph execution into a terminal error record. -/
def executeWorkflow (env : Env) (initial_state : ResearchState) : ResearchState :=
  match runGraph env RECURSION_LIMIT 0 .planner initial_state with
  | .ok final_state => final_state
  | .error e =>
    { initial_state with
      final_report := some ("Workflow execution failed: " ++ graphErrMsg e)
      errors := initial_state.errors
        ++ [⟨"workflow_execution_failed", graphErrMsg e, "workflow_execution"⟩]
      current_step := .report_complete
      end_time := some (env.now_iso 0) }

/-! ### Concrete fixtures used by witnesses and counterexamples -/

/-- An environment in which every LLM call fails (all providers down). -/
def envAllDown : Env :=
  { now_iso := fun _ => "2024-01-01T00:00:00"
    now_date := fun _ => "January 01, 2024"
    parse_iso := fun _ => none
    fmt_float := fun _ => "0.00"
    planner_resp := fun _ => .error "LLM unavailable"
    planner_internal_preview := fun _ => 0
    planner_external_preview := fun _ => 0
    internal_fatal := fun _ => none
    internal_results := fun _ _ => .ok []
    external_fatal := fun _ => none
    external_results := fun _ _ => .ok []
    coverage_llm := fun _ _ _ => .error "LLM unavailable"
    generator_fatal := fun _ => none
    section_llm := fun _ _ => .error "LLM unavailable"
    post_process_llm := fun _ => .error "LLM unavailable" }

/-- A fixture internal source with relevance 0.9. -/
def covSrc : Source :=
  { content := "fixture content"
    title := "Fixture"
    url := none
    source_type := "internal"
    relevance_score := 0.9
    credibility_score := 0.9
    question := "What is the fixture?"
    metadata := [] }

/-- A run record with sources but an empty question list: the input on which
`QualityAssessorAgent.execute` fails internally (`ZeroDivisionError`). -/
def qaFailState : ResearchState :=
  { mkInitialState "quantum computing" "2024-01-01T00:00:00" with
    internal_sources := [covSrc] }

/-- A run record that has already accumulated six errors. -/
def sixErrorState : ResearchState :=
  { mkInitialState "quantum computing" "2024-01-01T00:00:00" with
    errors :=
      [⟨"planning_failed", "m1", "planning"⟩,
       ⟨"internal_research_failed", "m2", "internal_research"⟩,
       ⟨"external_research_failed", "m3", "external_research"⟩,
       ⟨"quality_assessment_failed", "m4", "quality_assessment"⟩,
       ⟨"quality_assessment_failed", "m5", "quality_assessment"⟩,
       ⟨"report_generation_failed", "m6", "report_generation"⟩] }

/-- A quality-assessed record with a moderate score and no errors. -/
def routedState : ResearchState :=
  { mkInitialState "quantum computing" "2024-01-01T00:00:00" with
    quality_score := 0.8
    iteration_count := 1
    current_step := .quality_assessed }

/-- An environment in which the planner's LLM answers with four questions and
all other providers return empty results. -/
def envPlanOk : Env :=
  { envAllDown with
    planner_resp :=
      fun _ => .ok "1. What is A?\n2. What is B?\n3. What is C?\n4. What is D?" }

/-- Whether graph execution succeeded. -/
def exceptIsOk : Except GraphError ResearchState → Bool
  | .ok _ => true
  | .error _ => false

/-- No recorded error kind contains the substring `"critical"` (the condition
under which the quality router can never take the `error` edge). -/
def CriticalFree (errs : List ErrorInfo) : Prop :=
  ∀ e ∈ errs, pyStrContains e.type "critical" = false

/-! ## Theorems -/

/-- Claim C1: the quality router returns exactly one of four routes, determined
only by `(errors, iteration_count, quality_score)`, evaluated in priority
order: a `"critical"` error kind forces `error`; else `iteration_count ≥ 3`
forces `generate_report` (even for quality 0); else `quality_score ≥ 0.7`
gives `generate_report`, `≥ 0.4` gives `retry_research`, and anything lower
gives `replan`; and the router is deterministic in those three fields. -/
theorem C1_quality_router (s s₂ : ResearchState) :
    (_quality_router s = "error" ∨ _quality_router s = "generate_report"
      ∨ _quality_router s = "retry_research" ∨ _quality_router s = "replan")
    ∧ ((∃ e ∈ s.errors, pyStrContains e.type "critical" = true) →
        _quality_router s = "error")
    ∧ (CriticalFree s.errors →
        (s.iteration_count ≥ 3 → _quality_router s = "generate_report")
        ∧ (s.iteration_count < 3 → s.quality_score ≥ 0.7 →
            _quality_router s = "generate_report")
        ∧ (s.iteration_count < 3 → s.quality_score < 0.7 → s.quality_score ≥ 0.4 →
            _quality_router s = "retry_research")
        ∧ (s.iteration_count < 3 → s.quality_score < 0.4 → _quality_router s = "replan"))
    ∧ (s.errors = s₂.errors → s.iteration_count = s₂.iteration_count →
        s.quality_score = s₂.quality_score → _quality_router s = _quality_router s₂) := by
  refine ⟨?_, ?_, ?_, ?_⟩
  · simp only [_quality_router]
    split_ifs <;> tauto
  · intro ⟨e, he, hcrit⟩
    have hne : ¬((s.errors.filter fun e => pyStrContains e.type "critical").isEmpty = true) := by
      simp only [List.isEmpty_iff, List.filter_eq_nil_iff]
      exact fun h => by simpa [hcrit] using h e he
    simp only [_quality_router]
    rw [if_neg hne]
  · intro hfree
    have hempty : (s.errors.filter fun e => pyStrContains e.type "critical").isEmpty = true := by
      simp only [List.isEmpty_iff, List.filter_eq_nil_iff]
      intro e he
      simp [hfree e he]
    refine ⟨fun h3 => ?_, fun hlt3 h7 => ?_, fun hlt3 h7 h4 => ?_, fun hlt3 h4 => ?_⟩
    · simp only [_quality_router]
      rw [if_pos hempty, if_pos h3]
    · simp only [_quality_router]
      rw [if_pos hempty, if_neg (by omega : ¬s.iteration_count ≥ 3), if_pos h7]
    · simp only [_quality_router]
      rw [if_pos hempty, if_neg (by omega : ¬s.iteration_count ≥ 3),
        if_neg (not_le.mpr h7), if_pos h4]
    · have h7 : ¬s.quality_score ≥ 0.7 :=
        not_le.mpr (lt_trans h4 (by norm_num))
      simp only [_quality_router]
      rw [if_pos hempty, if_neg (by omega : ¬s.iteration_count ≥ 3), if_neg h7,
        if_neg (not_le.mpr h4)]
  · intro h1 h2 h3
    simp only [_quality_router]
    rw [h1, h2, h3]

/-- Witness for C1 at a concrete record. -/
theorem C1_quality_router_witness : _quality_router routedState = "generate_report" :=
  ((C1_quality_router routedState routedState).2.2.1
      (by intro e he; simp [routedState, mkInitialState] at he)).2.1
    (by decide) (by with_unfolding_all decide)

/-- Claim C10: the error-recovery node changes the record only when more than 5
errors have accumulated — then it sets `final_report` to a failure summary of
the error kinds and `current_step` to `REPORT_COMPLETE` — and with 5 or fewer
errors it returns the record unchanged in every field; in either case the
graph edge out of this node goes to `END`. -/
theorem C10_error_recovery (s t : ResearchState) :
    (s.errors.length ≤ 5 → _error_recovery_node s = s)
    ∧ (s.errors.length > 5 →
        _error_recovery_node s =
          { s with
            final_report := some ("Research failed due to multiple errors: "
              ++ pyReprStringList (s.errors.map fun e => e.type))
            current_step := .report_complete })
    ∧ nextNode .error_recovery t = .terminal := by
  refine ⟨fun hle => ?_, fun hgt => ?_, rfl⟩
  · unfold _error_recovery_node
    rw [if_neg (by omega : ¬s.errors.length > 5)]
  · unfold _error_recovery_node
    rw [if_pos hgt]

/-- Witness for C10: the unchanged branch on a fresh record and the failure
branch on a record with six errors. -/
theorem C10_error_recovery_witness :
    _error_recovery_node (mkInitialState "t" "now") = mkInitialState "t" "now"
    ∧ _error_recovery_node sixErrorState =
        { sixErrorState with
          final_report := some ("Research failed due to multiple errors: "
            ++ pyReprStringList (sixErrorState.errors.map fun e => e.type))
          current_step := .report_complete } :=
  ⟨(C10_error_recovery (mkInitialState "t" "now") (mkInitialState "t" "now")).1 (by decide),
   (C10_error_recovery sixErrorState sixErrorState).2.1 (by decide)⟩

/-- Claim C4: in the parallel research node's merge, the two paths are
failure-isolated — an exceptional path contributes an empty source list and a
typed error with its originating step, a successful path contributes exactly
the source list it produced, neither outcome affects the sibling path's
contribution, and the merge always completes, stamping the record
`RESEARCH_COMPLETE`. -/
theorem C4_parallel_merge_isolation (base : ResearchState)
    (internal_result external_result : Except String ResearchState) :
    (∀ msg, internal_result = .error msg →
      (_parallel_research_merge base internal_result external_result).internal_sources = []
      ∧ (⟨"internal_research_failed", msg, "internal_research"⟩ : ErrorInfo)
          ∈ (_parallel_research_merge base internal_result external_result).errors)
    ∧ (∀ st, internal_result = .ok st →
        (_parallel_research_merge base internal_result external_result).internal_sources
          = st.internal_sources)
    ∧ (∀ msg, external_result = .error msg →
        (_parallel_research_merge base internal_result external_result).external_sources = []
        ∧ (⟨"external_research_failed", msg, "external_research"⟩ : ErrorInfo)
            ∈ (_parallel_research_merge base internal_result external_result).errors)
    ∧ (∀ st, external_result = .ok st →
        (_parallel_research_merge base internal_result external_result).external_sources
          = st.external_sources)
    ∧ (_parallel_research_merge base internal_result external_result).current_step
        = .research_complete := by
  refine ⟨fun msg hi => ?_, fun st hi => ?_, fun msg he => ?_, fun st he => ?_, ?_⟩
  · subst hi
    cases external_result <;> simp [_parallel_research_merge]
  · subst hi
    cases external_result <;> simp [_parallel_research_merge]
  · subst he
    cases internal_result <;> simp [_parallel_research_merge]
  · subst he
    cases internal_result <;> simp [_parallel_research_merge]
  · cases internal_result <;> cases external_result <;> simp [_parallel_research_merge]

/-- Witness for C4: internal task raised, external task returned a state. -/
theorem C4_parallel_merge_isolation_witness :
    (_parallel_research_merge (mkInitialState "t" "now") (.error "boom")
        (.ok { mkInitialState "t" "now" with external_sources := [covSrc] })).internal_sources = []
    ∧ (⟨"internal_research_failed", "boom", "internal_research"⟩ : ErrorInfo)
        ∈ (_parallel_research_merge (mkInitialState "t" "now") (.error "boom")
            (.ok { mkInitialState "t" "now" with external_sources := [covSrc] })).errors
    ∧ (_parallel_research_merge (mkInitialState "t" "now") (.error "boom")
        (.ok { mkInitialState "t" "now" with external_sources := [covSrc] })).external_sources
        = [covSrc] := by
  refine ⟨((C4_parallel_merge_isolation _ _ _).1 "boom" rfl).1,
    ((C4_parallel_merge_isolation _ _ _).1 "boom" rfl).2,
    ?_⟩
  have h := (C4_parallel_merge_isolation (mkInitialState "t" "now") (.error "boom")
    (.ok { mkInitialState "t" "now" with external_sources := [covSrc] })).2.2.2.1
    { mkInitialState "t" "now" with external_sources := [covSrc] } rfl
  simpa using h

/-- Counterexample to claim C5 as stated: when the Quality Assessor's execute
fails internally (here: empty question list, the division by zero in the
overall-score formula), the error handler runs — the error list grows and the
0.6 default score is set — but no default `quality_assessment` object is
produced: the field keeps its prior `None`. -/
theorem C5_counterexample :
    (QualityAssessorAgent.execute (fun _ _ => .error "x") qaFailState).errors
      = qaFailState.errors
        ++ [⟨"quality_assessment_failed", "ZeroDivisionError: division by zero",
              "quality_assessment"⟩]
    ∧ (QualityAssessorAgent.execute (fun _ _ => .error "x") qaFailState).quality_score = 0.6
    ∧ (QualityAssessorAgent.execute (fun _ _ => .error "x") qaFailState).quality_assessment
        = none := by
  with_unfolding_all decide

/-- Claim C5, amended: if the Quality Assessor's execute fails internally it
does not raise — it appends a `quality_assessment_failed` error, sets
`quality_score` to the default 0.6, sets `all_sources` to the concatenation of
the run's internal and external source lists, and advances `current_step` to
`QUALITY_ASSESSED` — but it leaves the `quality_assessment` field unchanged
(no default assessment object with overall score 0.6 is produced). -/
theorem C5_assessor_failure_amended (cov : CoverageOracle) (s : ResearchState)
    (h : s.research_questions = []) :
    (QualityAssessorAgent.execute cov s).quality_score = 0.6
    ∧ (QualityAssessorAgent.execute cov s).all_sources
        = s.internal_sources ++ s.external_sources
    ∧ (QualityAssessorAgent.execute cov s).current_step = .quality_assessed
    ∧ (QualityAssessorAgent.execute cov s).errors
        = s.errors
          ++ [⟨"quality_assessment_failed", "ZeroDivisionError: division by zero",
                "quality_assessment"⟩]
    ∧ (QualityAssessorAgent.execute cov s).quality_assessment = s.quality_assessment := by
  simp [QualityAssessorAgent.execute, QualityAssessorAgent._assess_research_quality,
    QualityAssessorAgent._handle_error, h]

/-- Witness for the amended C5 at a concrete failing record. -/
theorem C5_assessor_failure_witness :
    (QualityAssessorAgent.execute (fun _ _ => .error "boom") qaFailState).quality_score = 0.6
    ∧ (QualityAssessorAgent.execute (fun _ _ => .error "boom") qaFailState).quality_assessment
        = qaFailState.quality_assessment :=
  ⟨(C5_assessor_failure_amended (fun _ _ => .error "boom") qaFailState rfl).1,
   (C5_assessor_failure_amended (fun _ _ => .error "boom") qaFailState rfl).2.2.2.2⟩

/-- Counterexample to claim C6 as stated: an LLM response that does not parse
as a float yields the constant 0.5, not the mean relevance (0.9 here) of the
question's sources. -/
theorem C6_counterexample :
    QualityAssessorAgent._calculate_question_coverage [covSrc] (fun _ => .ok none) = 0.5
    ∧ QualityAssessorAgent.meanRelevance [covSrc] = 0.9
    ∧ (0.5 : ℚ) ≠ 0.9 := by
  with_unfolding_all decide

/-- Claim C6, amended: a question with no attributed sources scores 0; a parsed
LLM rating of up to 5 of the question's sources is clamped to [0, 1]; an LLM
response that does not parse as a float yields the constant 0.5; and only a
raised LLM call falls back to the mean relevance score of the question's
sources. -/
theorem C6_question_coverage_amended (sources : List Source)
    (llm : List Source → Except String (Option ℚ)) :
    (sources = [] → QualityAssessorAgent._calculate_question_coverage sources llm = 0)
    ∧ (∀ x, sources ≠ [] → llm (sources.take 5) = .ok (some x) →
        QualityAssessorAgent._calculate_question_coverage sources llm = max 0 (min 1 x))
    ∧ (sources ≠ [] → llm (sources.take 5) = .ok none →
        QualityAssessorAgent._calculate_question_coverage sources llm = 0.5)
    ∧ (∀ m, sources ≠ [] → llm (sources.take 5) = .error m →
        QualityAssessorAgent._calculate_question_coverage sources llm
          = QualityAssessorAgent.meanRelevance sources)
    ∧ (∀ (q : String) (pool : List Source) (cov : CoverageOracle),
        pool.filter (fun s => s.question == q) = [] →
        QualityAssessorAgent._assess_content_coverage [q] pool cov = 0) := by
  refine ⟨fun h => ?_, fun x hne hllm => ?_, fun hne hllm => ?_, fun m hne hllm => ?_,
    fun q pool cov hrel => ?_⟩
  · simp [QualityAssessorAgent._calculate_question_coverage, h]
  · cases sources with
    | nil => cases hne rfl
    | cons a t =>
      simp only [List.take] at hllm
      simp [QualityAssessorAgent._calculate_question_coverage, hllm]
  · cases sources with
    | nil => cases hne rfl
    | cons a t =>
      simp only [List.take] at hllm
      simp [QualityAssessorAgent._calculate_question_coverage, hllm]
  · cases sources with
    | nil => cases hne rfl
    | cons a t =>
      simp only [List.take] at hllm
      simp [QualityAssessorAgent._calculate_question_coverage, hllm]
  · cases pool with
    | nil => simp [QualityAssessorAgent._assess_content_coverage]
    | cons a t =>
      have hempty : (List.filter (fun s => s.question == q) (a :: t)).isEmpty = true := by
        rw [hrel]
        rfl
      simp [QualityAssessorAgent._assess_content_coverage, hempty]
      intro _
      rw [hrel]
      simp [QualityAssessorAgent._calculate_question_coverage]

/-- Witness for the amended C6 on concrete oracle outcomes. -/
theorem C6_question_coverage_witness :
    QualityAssessorAgent._calculate_question_coverage [covSrc]
      (fun _ => .error "LLM down") = QualityAssessorAgent.meanRelevance [covSrc]
    ∧ QualityAssessorAgent._calculate_question_coverage [covSrc]
        (fun _ => .ok (some 2)) = max 0 (min 1 2) :=
  ⟨(C6_question_coverage_amended [covSrc] (fun _ => .error "LLM down")).2.2.2.1 "LLM down"
      (by decide) rfl,
   (C6_question_coverage_amended [covSrc] (fun _ => .ok (some 2))).2.1 2 (by decide) rfl⟩

/-- Counterexample to claim C7 as stated: a successful Planner invocation whose
LLM response contains no parseable question lines produces zero research
questions — the 4-question lower bound is not enforced anywhere. -/
theorem C7_counterexample :
    (ResearchPlannerAgent.execute (.ok "I could not generate questions") 0 0
        (mkInitialState "t" "now")).current_step = ResearchStep.planning_complete
    ∧ (ResearchPlannerAgent.execute (.ok "I could not generate questions") 0 0
        (mkInitialState "t" "now")).research_questions.length = 0 := by
  with_unfolding_all decide

/-- Claim C7, amended: a successful Planner invocation produces at most 6
research questions, each ending in a question mark, obtained by parsing
numbered or bulleted lines of the LLM response and filtering out lines that do
not end in a question mark; the 4-question lower bound of the prompt is not
enforced by the parser. -/
theorem C7_questions_amended (response : String) (internal_preview external_preview : Nat)
    (s : ResearchState) :
    (ResearchPlannerAgent._generate_research_questions response).length ≤ 6
    ∧ (∀ q ∈ ResearchPlannerAgent._generate_research_questions response,
        pyEndsWith q "?" = true)
    ∧ (ResearchPlannerAgent.execute (.ok response) internal_preview external_preview
        s).research_questions = ResearchPlannerAgent._generate_research_questions response := by
  refine ⟨?_, fun q hq => ?_, ?_⟩
  · exact List.length_take_le 6 _
  · have hq2 := List.mem_of_mem_take hq
    rw [List.mem_filterMap] at hq2
    obtain ⟨line, _, hline⟩ := hq2
    by_cases h1 : (pyStrip line != "" && (headIsDigit line.toList || pyStartsWith line "-")) = true
    · rw [if_pos h1] at hline
      by_cases h2 : pyEndsWith (pyStrip ⟨pySplitDotTail line.toList⟩) "?" = true
      · rw [if_pos h2] at hline
        cases hline
        exact h2
      · rw [if_neg h2] at hline
        cases hline
    · rw [if_neg h1] at hline
      cases hline
  · simp [ResearchPlannerAgent.execute]

/-- Witness for the amended C7 on a concrete LLM response. -/
theorem C7_questions_witness :
    (ResearchPlannerAgent._generate_research_questions
      "1. What is quantum computing?\n2. Where is it used?").length ≤ 6
    ∧ pyEndsWith "What is quantum computing?" "?" = true :=
  ⟨(C7_questions_amended "1. What is quantum computing?\n2. Where is it used?" 0 0
      (mkInitialState "t" "now")).1,
   (C7_questions_amended "1. What is quantum computing?\n2. Where is it used?" 0 0
      (mkInitialState "t" "now")).2.1 "What is quantum computing?" (by decide)⟩

/-- For any dedup key `k`, the deduplication loop keeps exactly the first
source carrying `k` (unless `k` was already seen). -/
theorem dedupAux_filter_key (k : List Char) :
    ∀ (l : List Source) (seen : List (List Char)),
      (InternalResearchAgent.dedupAux l seen).filter
          (fun t => decide (InternalResearchAgent.dedupKey t = k))
        = if k ∈ seen then []
          else (l.filter fun t => decide (InternalResearchAgent.dedupKey t = k)).take 1 := by
  intro l
  induction l with
  | nil =>
    intro seen
    simp [InternalResearchAgent.dedupAux]
  | cons s rest ih =>
    intro seen
    simp only [InternalResearchAgent.dedupAux]
    by_cases hs : InternalResearchAgent.dedupKey s ∈ seen
    · rw [if_pos hs]
      rcases eq_or_ne (InternalResearchAgent.dedupKey s) k with hk | hk
      · have hk2 : k ∈ seen := hk ▸ hs
        simp [ih, hk2]
      · simp [ih, List.filter_cons, hk]
    · rw [if_neg hs]
      rcases eq_or_ne (InternalResearchAgent.dedupKey s) k with hk | hk
      · subst hk
        have hmem : InternalResearchAgent.dedupKey s
            ∈ InternalResearchAgent.dedupKey s :: seen := List.mem_cons_self _ _
        simp [List.filter_cons, ih, hmem, hs]
      · have : (k ∈ InternalResearchAgent.dedupKey s :: seen) ↔ (k ∈ seen) := by
          simp [List.mem_cons, (Ne.symm hk : k ≠ InternalResearchAgent.dedupKey s)]
        simp [List.filter_cons, ih, hk, this]

/-- The deduplication loop returns a sublist (order-preserving selection) of
its input. -/
theorem dedupAux_sublist :
    ∀ (l : List Source) (seen : List (List Char)),
      (InternalResearchAgent.dedupAux l seen).Sublist l := by
  intro l
  induction l with
  | nil =>
    intro seen
    simp [InternalResearchAgent.dedupAux]
  | cons s rest ih =>
    intro seen
    simp only [InternalResearchAgent.dedupAux]
    by_cases hs : InternalResearchAgent.dedupKey s ∈ seen
    · rw [if_pos hs]
      exact (ih seen).trans (List.sublist_cons_self s rest)
    · rw [if_neg hs]
      exact (ih _).cons₂ s

/-- The deduplication loop produces pairwise-distinct keys, none of them
already seen. -/
theorem dedupAux_pairwise :
    ∀ (l : List Source) (seen : List (List Char)),
      ((InternalResearchAgent.dedupAux l seen).Pairwise
        fun a b => InternalResearchAgent.dedupKey a ≠ InternalResearchAgent.dedupKey b)
      ∧ ∀ t ∈ InternalResearchAgent.dedupAux l seen,
          InternalResearchAgent.dedupKey t ∉ seen := by
  intro l
  induction l with
  | nil =>
    intro seen
    simp [InternalResearchAgent.dedupAux]
  | cons s rest ih =>
    intro seen
    simp only [InternalResearchAgent.dedupAux]
    by_cases hs : InternalResearchAgent.dedupKey s ∈ seen
    · rw [if_pos hs]
      exact ih seen
    · rw [if_neg hs]
      refine ⟨List.Pairwise.cons (fun t ht => ?_) (ih _).1, fun t ht => ?_⟩
      · have := (ih (InternalResearchAgent.dedupKey s :: seen)).2 t ht
        exact fun hEq => this (hEq ▸ List.mem_cons_self _ _)
      · rcases List.mem_cons.mp ht with h | h
        · exact h ▸ hs
        · have := (ih (InternalResearchAgent.dedupKey s :: seen)).2 t h
          exact fun hmem => this (List.mem_cons_of_mem _ hmem)

/-- Helper `pySortDesc` sorts into descending key order. -/
theorem pySortDesc_sorted {α : Type} (key : α → ℚ) (l : List α) :
    (pySortDesc key l).Sorted fun a b => key b ≤ key a := by
  haveI : IsTotal α fun a b => key b ≤ key a := ⟨fun a b => le_total (key b) (key a)⟩
  haveI : IsTrans α fun a b => key b ≤ key a := ⟨fun _ _ _ hab hbc => le_trans hbc hab⟩
  exact List.sorted_insertionSort _ _

/-- Helper `pySortDesc` permutes its input. -/
theorem pySortDesc_perm {α : Type} (key : α → ℚ) (l : List α) :
    (pySortDesc key l).Perm l := List.perm_insertionSort _ _

/-- Claim C8: in the internal researcher, any two source candidates with
identical first-200-character content keys collapse to the single first
occurrence (exact-match collapse: for every key, the deduplicated list keeps
exactly the first matching candidate, in input order), and the surviving
sources in the final internal source list are in descending relevance order
with pairwise-distinct keys. -/
theorem C8_internal_dedup (l : List Source) (k : List Char) (fatal : Option String)
    (results : Nat → Except String (List RawInternal)) (s : ResearchState) :
    (InternalResearchAgent._deduplicate_sources l).filter
        (fun t => decide (InternalResearchAgent.dedupKey t = k))
      = (l.filter fun t => decide (InternalResearchAgent.dedupKey t = k)).take 1
    ∧ (InternalResearchAgent._deduplicate_sources l).Sublist l
    ∧ (InternalResearchAgent.execute fatal results s).internal_sources.Pairwise
        (fun a b => InternalResearchAgent.dedupKey a ≠ InternalResearchAgent.dedupKey b)
    ∧ (InternalResearchAgent.execute fatal results s).internal_sources.Sorted
        (fun a b => b.relevance_score ≤ a.relevance_score) := by
  refine ⟨?_, dedupAux_sublist l [], ?_, ?_⟩
  · have h := dedupAux_filter_key k l []
    simpa [InternalResearchAgent._deduplicate_sources] using h
  · cases fatal with
    | some m => simp [InternalResearchAgent.execute, InternalResearchAgent._handle_error]
    | none =>
      simp only [InternalResearchAgent.execute]
      have hded := (dedupAux_pairwise
        (InternalResearchAgent.collectSources s.research_questions results) []).1
      have hperm := pySortDesc_perm (fun x : Source => x.relevance_score)
        (InternalResearchAgent._deduplicate_sources
          (InternalResearchAgent.collectSources s.research_questions results))
      have hsorted := (hperm.pairwise_iff fun h => Ne.symm h).mpr hded
      exact List.Pairwise.sublist (List.take_sublist _ _) hsorted
  · cases fatal with
    | some m => simp [InternalResearchAgent.execute, InternalResearchAgent._handle_error]
    | none =>
      simp only [InternalResearchAgent.execute]
      exact List.Pairwise.sublist (List.take_sublist _ _)
        (pySortDesc_sorted (fun x : Source => x.relevance_score) _)

/-- Claim C9: the truncation invariants — at most 20 internal sources and 25
external sources after each research pass, and at most 15 internal / 20
external entries in the generated references section. -/
theorem C9_truncation (fatal : Option String)
    (results : Nat → Except String (List RawInternal)) (s : ResearchState)
    (fatal2 : Option String) (results2 : Nat → Except String (List RawExternal))
    (s2 : ResearchState) (srcs : List Source) :
    (InternalResearchAgent.execute fatal results s).internal_sources.length ≤ 20
    ∧ (ExternalResearchAgent.execute fatal2 results2 s2).external_sources.length ≤ 25
    ∧ (ReportGeneratorAgent.referencesInternalEntries srcs).length ≤ 15
    ∧ (ReportGeneratorAgent.referencesExternalEntries srcs).length ≤ 20 := by
  refine ⟨?_, ?_, ?_, ?_⟩
  · cases fatal with
    | some m => simp [InternalResearchAgent.execute, InternalResearchAgent._handle_error]
    | none =>
      simp only [InternalResearchAgent.execute]
      exact List.length_take_le _ _
  · cases fatal2 with
    | some m => simp [ExternalResearchAgent.execute, ExternalResearchAgent._handle_error]
    | none =>
      simp only [ExternalResearchAgent.execute]
      exact List.length_take_le _ _
  · simp only [ReportGeneratorAgent.referencesInternalEntries, List.length_map,
      List.enum_length, List.length_take]
    omega
  · simp only [ReportGeneratorAgent.referencesExternalEntries, List.length_map,
      List.enum_length, List.length_take]
    omega

/-- The empty error list is critical-free. -/
theorem criticalFree_nil : CriticalFree [] := fun e he => absurd he (List.not_mem_nil e)

/-- Critical-freedom is preserved by appending critical-free errors. -/
theorem criticalFree_append {a b : List ErrorInfo} (ha : CriticalFree a) (hb : CriticalFree b) :
    CriticalFree (a ++ b) :=
  fun e he => (List.mem_append.mp he).elim (ha e) (hb e)

/-- A single stage error whose kind avoids `"critical"` is critical-free. -/
theorem criticalFree_singleton {t m st : String} (h : pyStrContains t "critical" = false) :
    CriticalFree [⟨t, m, st⟩] := by
  intro e he
  rcases List.mem_singleton.mp he with rfl
  exact h

/-- The planner stage appends only critical-free errors. -/
theorem planner_node_errors (env : Env) (k : Nat) (s : ResearchState) :
    ∃ extra, (_planning_node env k s).errors = s.errors ++ extra ∧ CriticalFree extra := by
  cases hr : env.planner_resp k with
  | ok response =>
    exact ⟨[], by simp [_planning_node, hr, ResearchPlannerAgent.execute], criticalFree_nil⟩
  | error m =>
    exact ⟨[⟨"planning_failed", m, "planning"⟩],
      by simp [_planning_node, hr, ResearchPlannerAgent.execute,
        ResearchPlannerAgent._handle_error],
      criticalFree_singleton (by decide)⟩

/-- The internal researcher appends only critical-free errors. -/
theorem internal_execute_errors (fatal : Option String)
    (results : Nat → Except String (List RawInternal)) (s : ResearchState) :
    ∃ extra, (InternalResearchAgent.execute fatal results s).errors = s.errors ++ extra
      ∧ CriticalFree extra := by
  cases fatal with
  | none => exact ⟨[], by simp [InternalResearchAgent.execute], criticalFree_nil⟩
  | some m =>
    exact ⟨[⟨"internal_research_failed", m, "internal_research"⟩],
      by simp [InternalResearchAgent.execute, InternalResearchAgent._handle_error],
      criticalFree_singleton (by decide)⟩

/-- The external researcher appends only critical-free errors. -/
theorem external_execute_errors (fatal : Option String)
    (results : Nat → Except String (List RawExternal)) (s : ResearchState) :
    ∃ extra, (ExternalResearchAgent.execute fatal results s).errors = s.errors ++ extra
      ∧ CriticalFree extra := by
  cases fatal with
  | none => exact ⟨[], by simp [ExternalResearchAgent.execute], criticalFree_nil⟩
  | some m =>
    exact ⟨[⟨"external_research_failed", m, "external_research"⟩],
      by simp [ExternalResearchAgent.execute, ExternalResearchAgent._handle_error],
      criticalFree_singleton (by decide)⟩

/-- The parallel research node appends only critical-free errors. -/
theorem parallel_node_errors (env : Env) (k : Nat) (s : ResearchState) :
    ∃ extra, (_parallel_research_node env k s).errors = s.errors ++ extra
      ∧ CriticalFree extra := by
  obtain ⟨e1, he1, hc1⟩ := internal_execute_errors (env.internal_fatal k)
    (env.internal_results k) { s with current_step := ResearchStep.internal_research }
  obtain ⟨e2, he2, hc2⟩ := external_execute_errors (env.external_fatal k)
    (env.external_results k) { s with current_step := ResearchStep.internal_research }
  refine ⟨e1 ++ e2, ?_, criticalFree_append hc1 hc2⟩
  simp only [_parallel_research_node, _parallel_research_merge]
  simp only at he1 he2
  rw [he1, he2]
  simp [List.drop_left, List.append_assoc]

/-- The quality assessor appends only critical-free errors. -/
theorem qa_execute_errors (cov : CoverageOracle) (s : ResearchState) :
    ∃ extra, (QualityAssessorAgent.execute cov s).errors = s.errors ++ extra
      ∧ CriticalFree extra := by
  cases h : QualityAssessorAgent._assess_research_quality s.research_questions
      s.internal_sources s.external_sources cov with
  | ok a => exact ⟨[], by simp [QualityAssessorAgent.execute, h], criticalFree_nil⟩
  | error m =>
    exact ⟨[⟨"quality_assessment_failed", m, "quality_assessment"⟩],
      by simp [QualityAssessorAgent.execute, h, QualityAssessorAgent._handle_error],
      criticalFree_singleton (by decide)⟩

/-- The report generator appends only critical-free errors. -/
theorem generator_execute_errors (fatal : Option String) (sec : Nat → Except String String)
    (s : ResearchState) :
    ∃ extra, (ReportGeneratorAgent.execute fatal sec s).errors = s.errors ++ extra
      ∧ CriticalFree extra := by
  cases fatal with
  | some m =>
    exact ⟨[⟨"report_generation_failed", m, "report_generation"⟩],
      by simp [ReportGeneratorAgent.execute, ReportGeneratorAgent._handle_error],
      criticalFree_singleton (by decide)⟩
  | none =>
    refine ⟨[], ?_, criticalFree_nil⟩
    by_cases hs : s.all_sources.isEmpty
    · simp [ReportGeneratorAgent.execute, hs, ReportGeneratorAgent._handle_insufficient_sources]
    · simp [ReportGeneratorAgent.execute, hs]

/-- The report synthesizer appends only critical-free errors. -/
theorem synthesizer_execute_errors (post : Except String String)
    (now_iso current_date : String) (parse : String → Option ℚ) (fmt : ℚ → String)
    (s : ResearchState) :
    ∃ extra, (ReportSynthesizerAgent.execute post now_iso current_date parse fmt s).errors
      = s.errors ++ extra ∧ CriticalFree extra := by
  by_cases hs : s.report_sections.isEmpty
  · exact ⟨[],
      by simp [ReportSynthesizerAgent.execute, hs, ReportSynthesizerAgent._handle_empty_sections],
      criticalFree_nil⟩
  · cases h : ReportSynthesizerAgent._synthesize_report s post current_date fmt with
    | ok r => exact ⟨[], by simp [ReportSynthesizerAgent.execute, hs, h], criticalFree_nil⟩
    | error m =>
      exact ⟨[⟨"report_synthesis_failed", m, "report_synthesis"⟩],
        by simp [ReportSynthesizerAgent.execute, hs, h, ReportSynthesizerAgent._handle_error],
        criticalFree_singleton (by decide)⟩

/-- Every graph node appends only critical-free errors to the record. -/
theorem stepNode_errors (env : Env) (k : Nat) (node : WorkflowNode) (s : ResearchState) :
    ∃ extra, (stepNode env k node s).errors = s.errors ++ extra ∧ CriticalFree extra := by
  cases node with
  | planner => exact planner_node_errors env k s
  | parallel_research => exact parallel_node_errors env k s
  | quality_assessor =>
    obtain ⟨extra, he, hc⟩ := qa_execute_errors (env.coverage_llm k)
      { s with current_step := ResearchStep.quality_assessment }
    exact ⟨extra, by simpa [stepNode, _quality_assessment_node] using he, hc⟩
  | report_generator =>
    obtain ⟨extra, he, hc⟩ := generator_execute_errors (env.generator_fatal k)
      (env.section_llm k) { s with current_step := ResearchStep.report_generation }
    exact ⟨extra, by simpa [stepNode, _report_generation_node] using he, hc⟩
  | synthesizer =>
    obtain ⟨extra, he, hc⟩ := synthesizer_execute_errors (env.post_process_llm k)
      (env.now_iso k) (env.now_date k) env.parse_iso env.fmt_float
      { s with current_step := ResearchStep.report_synthesis }
    exact ⟨extra, by simpa [stepNode, _synthesis_node] using he, hc⟩
  | error_recovery =>
    refine ⟨[], ?_, criticalFree_nil⟩
    by_cases hgt : s.errors.length > 5
    · simp [stepNode, _error_recovery_node, hgt]
    · simp [stepNode, _error_recovery_node, hgt]
  | terminal => exact ⟨[], by simp [stepNode], criticalFree_nil⟩

/-- Node execution preserves critical-freedom of the error log. -/
theorem stepNode_criticalFree (env : Env) (k : Nat) (node : WorkflowNode) (s : ResearchState)
    (h : CriticalFree s.errors) : CriticalFree (stepNode env k node s).errors := by
  obtain ⟨extra, heq, hc⟩ := stepNode_errors env k node s
  rw [heq]
  exact criticalFree_append h hc

/-- With a critical-free error log the router returns one of the three
non-error routes. -/
theorem quality_router_cases (s : ResearchState) (h : CriticalFree s.errors) :
    _quality_router s = "generate_report" ∨ _quality_router s = "retry_research"
      ∨ _quality_router s = "replan" := by
  have hempty : (s.errors.filter fun e => pyStrContains e.type "critical").isEmpty = true := by
    simp only [List.isEmpty_iff, List.filter_eq_nil_iff]
    intro e he
    simp [h e he]
  simp only [_quality_router]
  rw [if_pos hempty]
  split_ifs <;> simp

/-- The synthesizer node always stamps a terminal step and a report string. -/
theorem synthesis_node_result (env : Env) (k : Nat) (s : ResearchState) :
    (stepNode env k .synthesizer s).current_step = .report_complete
    ∧ ∃ r, (stepNode env k .synthesizer s).final_report = some r := by
  simp only [stepNode, _synthesis_node]
  by_cases hs : ({ s with current_step := ResearchStep.report_synthesis } :
      ResearchState).report_sections.isEmpty
  · simp [ReportSynthesizerAgent.execute, hs, ReportSynthesizerAgent._handle_empty_sections]
  · cases h : ReportSynthesizerAgent._synthesize_report
        { s with current_step := ResearchStep.report_synthesis }
        (env.post_process_llm k) (env.now_date k) env.fmt_float with
    | ok r => simp [ReportSynthesizerAgent.execute, hs, h]
    | error m => simp [ReportSynthesizerAgent.execute, hs, h, ReportSynthesizerAgent._handle_error]

/-- One-step unfolding of graph execution. -/
theorem runGraph_succ (env : Env) (n k : Nat) (node : WorkflowNode) (s : ResearchState) :
    runGraph env (n + 1) k node s =
      match nextNode node (stepNode env k node s) with
      | .terminal => .ok (stepNode env k node s)
      | nn => runGraph env n (k + 1) nn (stepNode env k node s) := rfl

/-- Any successful graph execution entered at a working node (not error
recovery, not `END`) with a critical-free error log ends in a state that is
`REPORT_COMPLETE` and carries a final report. -/
theorem runGraph_ok_report (env : Env) :
    ∀ (fuel k : Nat) (node : WorkflowNode) (s s2 : ResearchState),
      node ≠ .error_recovery → node ≠ .terminal → CriticalFree s.errors →
      runGraph env fuel k node s = .ok s2 →
      s2.current_step = .report_complete ∧ ∃ r, s2.final_report = some r := by
  intro fuel
  induction fuel with
  | zero =>
    intro k node s s2 _ _ _ h
    exact absurd h (by simp [runGraph])
  | succ n ih =>
    intro k node s s2 hne hnt hcf h
    have hcf1 : CriticalFree (stepNode env k node s).errors :=
      stepNode_criticalFree env k node s hcf
    cases node with
    | planner =>
      rw [runGraph_succ] at h
      exact ih (k + 1) .parallel_research _ s2 (by simp) (by simp) hcf1 h
    | parallel_research =>
      rw [runGraph_succ] at h
      exact ih (k + 1) .quality_assessor _ s2 (by simp) (by simp) hcf1 h
    | quality_assessor =>
      rw [runGraph_succ] at h
      rcases quality_router_cases (stepNode env k .quality_assessor s) hcf1 with hr | hr | hr
      · rw [show nextNode .quality_assessor (stepNode env k .quality_assessor s)
            = routeTarget (_quality_router (stepNode env k .quality_assessor s)) from rfl,
          hr] at h
        exact ih (k + 1) .report_generator _ s2 (by simp) (by simp) hcf1 h
      · rw [show nextNode .quality_assessor (stepNode env k .quality_assessor s)
            = routeTarget (_quality_router (stepNode env k .quality_assessor s)) from rfl,
          hr] at h
        exact ih (k + 1) .parallel_research _ s2 (by simp) (by simp) hcf1 h
      · rw [show nextNode .quality_assessor (stepNode env k .quality_assessor s)
            = routeTarget (_quality_router (stepNode env k .quality_assessor s)) from rfl,
          hr] at h
        exact ih (k + 1) .planner _ s2 (by simp) (by simp) hcf1 h
    | report_generator =>
      rw [runGraph_succ] at h
      exact ih (k + 1) .synthesizer _ s2 (by simp) (by simp) hcf1 h
    | synthesizer =>
      rw [runGraph_succ] at h
      have hinj : stepNode env k .synthesizer s = s2 := by
        rw [show nextNode .synthesizer (stepNode env k .synthesizer s) = .terminal from rfl] at h
        simpa using h
      rw [← hinj]
      exact synthesis_node_result env k s
    | error_recovery => exact absurd rfl hne
    | terminal => exact absurd rfl hnt

/-- Claim C2: for every topic and every collaborator behavior, the workflow's
execute entry point returns a run record (it is total — graph exceptions,
including the recursion limit, are converted rather than re-raised) whose
`current_step` is the terminal `REPORT_COMPLETE` and which carries a report
string in `final_report`; when graph execution fails, the returned record
carries a `workflow_execution_failed` error and an end timestamp. -/
theorem C2_execute_terminal_report (env : Env) (topic now : String) :
    (executeWorkflow env (mkInitialState topic now)).current_step
        = ResearchStep.report_complete
    ∧ (∃ r, (executeWorkflow env (mkInitialState topic now)).final_report = some r)
    ∧ (∀ (s : ResearchState) (e : GraphError),
        runGraph env RECURSION_LIMIT 0 .planner s = .error e →
        executeWorkflow env s =
          { s with
            final_report := some ("Workflow execution failed: " ++ graphErrMsg e)
            errors := s.errors
              ++ [⟨"workflow_execution_failed", graphErrMsg e, "workflow_execution"⟩]
            current_step := .report_complete
            end_time := some (env.now_iso 0) }) := by
  have hmain : (executeWorkflow env (mkInitialState topic now)).current_step
      = ResearchStep.report_complete
      ∧ ∃ r, (executeWorkflow env (mkInitialState topic now)).final_report = some r := by
    cases hr : runGraph env RECURSION_LIMIT 0 .planner (mkInitialState topic now) with
    | ok s2 =>
      have hres := runGraph_ok_report env RECURSION_LIMIT 0 .planner
        (mkInitialState topic now) s2 (by simp) (by simp)
        (by intro e he; simp [mkInitialState] at he) hr
      simpa [executeWorkflow, hr] using hres
    | error e => simp [executeWorkflow, hr]
  exact ⟨hmain.1, hmain.2, fun s e h => by simp [executeWorkflow, h]⟩

/-- Witness for C2: with every provider down the run exhausts the recursion
limit (the quality score sticks at 0.6, a retry loop), and the top-level guard
converts the failure into a terminal record. -/
theorem C2_execute_witness :
    executeWorkflow envAllDown (mkInitialState "quantum computing" "t0")
      = { mkInitialState "quantum computing" "t0" with
          final_report := some ("Workflow execution failed: " ++ graphErrMsg .recursionLimit)
          errors := (mkInitialState "quantum computing" "t0").errors
            ++ [⟨"workflow_execution_failed", graphErrMsg .recursionLimit,
                  "workflow_execution"⟩]
          current_step := .report_complete
          end_time := some (envAllDown.now_iso 0) } :=
  (C2_execute_terminal_report envAllDown "quantum computing" "t0").2.2
    (mkInitialState "quantum computing" "t0") .recursionLimit (by with_unfolding_all rfl)

/-- Nodes other than the planner leave `iteration_count` unchanged. -/
theorem stepNode_iteration_eq (env : Env) (k : Nat) (node : WorkflowNode) (s : ResearchState)
    (h : node ≠ .planner) : (stepNode env k node s).iteration_count = s.iteration_count := by
  cases node with
  | planner => exact absurd rfl h
  | parallel_research =>
    simp [stepNode, _parallel_research_node, _parallel_research_merge]
  | quality_assessor =>
    cases hq : QualityAssessorAgent._assess_research_quality
        ({ s with current_step := ResearchStep.quality_assessment } :
          ResearchState).research_questions
        ({ s with current_step := ResearchStep.quality_assessment } :
          ResearchState).internal_sources
        ({ s with current_step := ResearchStep.quality_assessment } :
          ResearchState).external_sources (env.coverage_llm k) with
    | ok a =>
      simp [stepNode, _quality_assessment_node, QualityAssessorAgent.execute, hq]
    | error m =>
      simp [stepNode, _quality_assessment_node, QualityAssessorAgent.execute, hq,
        QualityAssessorAgent._handle_error]
  | report_generator =>
    cases hf : env.generator_fatal k with
    | some m =>
      simp [stepNode, _report_generation_node, ReportGeneratorAgent.execute, hf,
        ReportGeneratorAgent._handle_error]
    | none =>
      by_cases hs : ({ s with current_step := ResearchStep.report_generation } :
          ResearchState).all_sources.isEmpty
      · simp [stepNode, _report_generation_node, ReportGeneratorAgent.execute, hf, hs,
          ReportGeneratorAgent._handle_insufficient_sources]
      · simp [stepNode, _report_generation_node, ReportGeneratorAgent.execute, hf, hs]
  | synthesizer =>
    by_cases hs : ({ s with current_step := ResearchStep.report_synthesis } :
        ResearchState).report_sections.isEmpty
    · simp [stepNode, _synthesis_node, ReportSynthesizerAgent.execute, hs,
        ReportSynthesizerAgent._handle_empty_sections]
    · cases hq : ReportSynthesizerAgent._synthesize_report
          { s with current_step := ResearchStep.report_synthesis }
          (env.post_process_llm k) (env.now_date k) env.fmt_float with
      | ok r => simp [stepNode, _synthesis_node, ReportSynthesizerAgent.execute, hs, hq]
      | error m =>
        simp [stepNode, _synthesis_node, ReportSynthesizerAgent.execute, hs, hq,
          ReportSynthesizerAgent._handle_error]
  | error_recovery =>
    by_cases hgt : s.errors.length > 5
    · simp [stepNode, _error_recovery_node, hgt]
    · simp [stepNode, _error_recovery_node, hgt]
  | terminal => simp [stepNode]

/-- No node ever decreases `iteration_count`. -/
theorem stepNode_iteration_mono (env : Env) (k : Nat) (node : WorkflowNode)
    (s : ResearchState) :
    s.iteration_count ≤ (stepNode env k node s).iteration_count := by
  cases node with
  | planner =>
    cases hr : env.planner_resp k with
    | ok response =>
      simp [stepNode, _planning_node, hr, ResearchPlannerAgent.execute]
    | error m =>
      simp [stepNode, _planning_node, hr, ResearchPlannerAgent.execute,
        ResearchPlannerAgent._handle_error]
  | parallel_research =>
    exact le_of_eq (stepNode_iteration_eq env k _ s (by simp)).symm
  | quality_assessor =>
    exact le_of_eq (stepNode_iteration_eq env k _ s (by simp)).symm
  | report_generator =>
    exact le_of_eq (stepNode_iteration_eq env k _ s (by simp)).symm
  | synthesizer =>
    exact le_of_eq (stepNode_iteration_eq env k _ s (by simp)).symm
  | error_recovery =>
    exact le_of_eq (stepNode_iteration_eq env k _ s (by simp)).symm
  | terminal =>
    exact le_of_eq (stepNode_iteration_eq env k _ s (by simp)).symm

/-- Along any successful graph execution `iteration_count` never decreases. -/
theorem runGraph_iteration_mono (env : Env) :
    ∀ (fuel k : Nat) (node : WorkflowNode) (s s2 : ResearchState),
      runGraph env fuel k node s = .ok s2 →
      s.iteration_count ≤ s2.iteration_count := by
  intro fuel
  induction fuel with
  | zero =>
    intro k node s s2 h
    exact absurd h (by simp [runGraph])
  | succ n ih =>
    intro k node s s2 h
    rw [runGraph_succ] at h
    cases hnn : nextNode node (stepNode env k node s) with
    | terminal =>
      rw [hnn] at h
      have h2 : stepNode env k node s = s2 := by simpa using h
      exact h2 ▸ stepNode_iteration_mono env k node s
    | planner =>
      rw [hnn] at h
      exact le_trans (stepNode_iteration_mono env k node s) (ih (k + 1) .planner _ s2 h)
    | parallel_research =>
      rw [hnn] at h
      exact le_trans (stepNode_iteration_mono env k node s)
        (ih (k + 1) .parallel_research _ s2 h)
    | quality_assessor =>
      rw [hnn] at h
      exact le_trans (stepNode_iteration_mono env k node s)
        (ih (k + 1) .quality_assessor _ s2 h)
    | report_generator =>
      rw [hnn] at h
      exact le_trans (stepNode_iteration_mono env k node s)
        (ih (k + 1) .report_generator _ s2 h)
    | synthesizer =>
      rw [hnn] at h
      exact le_trans (stepNode_iteration_mono env k node s) (ih (k + 1) .synthesizer _ s2 h)
    | error_recovery =>
      rw [hnn] at h
      exact le_trans (stepNode_iteration_mono env k node s)
        (ih (k + 1) .error_recovery _ s2 h)

/-- Counterexample to claim C3 as stated: a failed Planner invocation appends
its `planning_failed` error but leaves `iteration_count` unchanged — only
successful invocations increment it. -/
theorem C3_counterexample :
    (ResearchPlannerAgent.execute (.error "LLM unavailable") 0 0
        (mkInitialState "t" "now")).iteration_count
      = (mkInitialState "t" "now").iteration_count
    ∧ (ResearchPlannerAgent.execute (.error "LLM unavailable") 0 0
        (mkInitialState "t" "now")).errors
      = [⟨"planning_failed", "LLM unavailable", "planning"⟩] := by
  decide

/-- Claim C3, amended: a successful Planner invocation increments
`iteration_count` by exactly 1; a failed invocation (which appends
`planning_failed` and routes to error recovery) leaves it unchanged; no other
stage modifies it; hence it is non-decreasing across any run. -/
theorem C3_iteration_amended (env : Env) (k : Nat) (s : ResearchState) :
    (∀ response internal_preview external_preview,
      (ResearchPlannerAgent.execute (.ok response) internal_preview external_preview
        s).iteration_count = s.iteration_count + 1)
    ∧ (∀ m internal_preview external_preview,
      (ResearchPlannerAgent.execute (.error m) internal_preview external_preview
        s).iteration_count = s.iteration_count)
    ∧ (∀ response, env.planner_resp k = .ok response →
        (stepNode env k .planner s).iteration_count = s.iteration_count + 1)
    ∧ (∀ m, env.planner_resp k = .error m →
        (stepNode env k .planner s).iteration_count = s.iteration_count)
    ∧ (∀ node, node ≠ WorkflowNode.planner →
        (stepNode env k node s).iteration_count = s.iteration_count)
    ∧ (∀ (fuel k2 : Nat) (node : WorkflowNode) (s2 : ResearchState),
        runGraph env fuel k2 node s = .ok s2 → s.iteration_count ≤ s2.iteration_count) := by
  refine ⟨?_, ?_, ?_, ?_, fun node h => stepNode_iteration_eq env k node s h,
    fun fuel k2 node s2 h => runGraph_iteration_mono env fuel k2 node s s2 h⟩
  · intro response internal_preview external_preview
    simp [ResearchPlannerAgent.execute]
  · intro m internal_preview external_preview
    simp [ResearchPlannerAgent.execute, ResearchPlannerAgent._handle_error]
  · intro response hr
    simp [stepNode, _planning_node, hr, ResearchPlannerAgent.execute]
  · intro m hr
    simp [stepNode, _planning_node, hr, ResearchPlannerAgent.execute,
      ResearchPlannerAgent._handle_error]

/-- Witness for the amended C3: a concrete successful increment, a concrete
failed non-increment, an untouched non-planner stage, and a completed run
along which the count did not decrease. -/
theorem C3_iteration_witness :
    (ResearchPlannerAgent.execute (.ok "1. What is A?") 0 0
        (mkInitialState "t" "n")).iteration_count
      = (mkInitialState "t" "n").iteration_count + 1
    ∧ (stepNode envAllDown 0 .planner (mkInitialState "t" "n")).iteration_count
        = (mkInitialState "t" "n").iteration_count
    ∧ (stepNode envPlanOk 0 .planner (mkInitialState "t" "n")).iteration_count
        = (mkInitialState "t" "n").iteration_count + 1
    ∧ (stepNode envAllDown 0 .error_recovery (mkInitialState "t" "n")).iteration_count
        = (mkInitialState "t" "n").iteration_count
    ∧ (∃ s2, runGraph envPlanOk RECURSION_LIMIT 0 .planner (mkInitialState "t" "n") = .ok s2
        ∧ (mkInitialState "t" "n").iteration_count ≤ s2.iteration_count) := by
  refine ⟨(C3_iteration_amended envAllDown 0 (mkInitialState "t" "n")).1 "1. What is A?" 0 0,
    (C3_iteration_amended envAllDown 0 (mkInitialState "t" "n")).2.2.2.1 "LLM unavailable" rfl,
    (C3_iteration_amended envPlanOk 0 (mkInitialState "t" "n")).2.2.1
      "1. What is A?\n2. What is B?\n3. What is C?\n4. What is D?" rfl,
    (C3_iteration_amended envAllDown 0 (mkInitialState "t" "n")).2.2.2.2.1 .error_recovery
      (by simp),
    ?_⟩
  have hok : exceptIsOk
      (runGraph envPlanOk RECURSION_LIMIT 0 .planner (mkInitialState "t" "n")) = true := by
    with_unfolding_all rfl
  cases hr : runGraph envPlanOk RECURSION_LIMIT 0 .planner (mkInitialState "t" "n") with
  | error e =>
    rw [hr] at hok
    simp [exceptIsOk] at hok
  | ok s2 =>
    exact ⟨s2, rfl,
      (C3_iteration_amended envPlanOk 0 (mkInitialState "t" "n")).2.2.2.2.2
        RECURSION_LIMIT 0 .planner s2 hr⟩
